import Mathlib

/-!
# Verification of the Dashboard stats aggregation

Shallow embedding of `src/project/src/components/Dashboard.tsx`
(the `Dashboard` React component) and proofs about its stats
aggregation routine `fetchStats` and its rendering decisions.

Modelling conventions:
* A Firestore document / JS object field that may be absent is an `Option`.
* The JS `Map` used for the section-wise grouping preserves insertion
  order and updates the value of the first (unique) occurrence of a key;
  it is embedded as an association list `List (String × Nat)` built
  in encounter order by `bump`.
* The `vivaScores` JS object is represented by its key list
  (`Object.keys`); keys of a JS object are pairwise distinct.
* Query failures (`await getDocs` throwing) are `Except String`
  values passed into `fetchStats`; the surrounding `try/catch` is the
  `match` on those values.  The embedded `fetchStats` is a total
  function: no exception reaches the caller.
* JS numbers that can go negative before `Math.max(0, ·)` are `Int`.
-/

namespace Dashboard

/-- A student document from the `students` collection.  The source reads
`doc.id`, `student.section` and `student.experimentsCompleted`; the latter
two may be absent.  (`section` is a Lean keyword, hence `sectionField`.) -/
structure StudentRecord where
  id : String
  sectionField : Option String
  experimentsCompleted : Option (List String)
  deriving Repr, DecidableEq

/-- An experiment document from the `experiments` collection; only its
count is consumed (`experiments.length`). -/
structure ExperimentRecord where
  id : String
  deriving Repr, DecidableEq

/-- The `userProfile` supplied by the auth context.  `vivaScores` is the
key list of the student's `vivaScores` object (`Object.keys`); `none`
models an absent field. -/
structure Profile where
  role : String
  uid : String
  experimentsCompleted : Option (List String)
  vivaScores : Option (List String)
  deriving Repr, DecidableEq

/-- One pie-chart slice `{ name, value, color }`. -/
structure ChartEntry where
  name : String
  value : Int
  color : String
  deriving Repr, DecidableEq

/-- The `stats` state of the component. -/
structure Stats where
  totalStudents : Nat
  totalExperiments : Nat
  completedExperiments : Nat
  vivaAttempts : Nat
  sectionWiseStudents : List ChartEntry
  experimentProgress : List ChartEntry
  vivaProgress : List ChartEntry
  deriving Repr, DecidableEq

/-- The initial `useState` value: every count `0`, every list empty. -/
def initialStats : Stats :=
  { totalStudents := 0
    totalExperiments := 0
    completedExperiments := 0
    vivaAttempts := 0
    sectionWiseStudents := []
    experimentProgress := []
    vivaProgress := [] }

/-- The fixed 8-color palette `colors`. -/
def colors : List String :=
  ["#3B82F6", "#10B981", "#F59E0B", "#EF4444",
   "#8B5CF6", "#06B6D4", "#84CC16", "#F97316"]

/-- `student.section || 'Unknown'`: the JS `||` replaces both an absent
`section` and the (falsy) empty string by the label `"Unknown"`. -/
def sectionLabel (s : StudentRecord) : String :=
  match s.sectionField with
  | none => "Unknown"
  | some str => if str = "" then "Unknown" else str

/-- `sectionMap.set(section, (sectionMap.get(section) || 0) + 1)` on a JS
`Map`: increment the value at the first occurrence of `key`, or append
`(key, 1)` at the end if `key` is new. -/
def bump (m : List (String × Nat)) (key : String) : List (String × Nat) :=
  match m with
  | [] => [(key, 1)]
  | (k, v) :: rest => if k = key then (k, v + 1) :: rest else (k, v) :: bump rest key

/-- The JS `Map` built by `students.forEach(...)`: section label to
number of students, entries in first-encounter order. -/
def sectionMap (students : List StudentRecord) : List (String × Nat) :=
  students.foldl (fun m s => bump m (sectionLabel s)) []

/-- `Array.from(sectionMap.entries()).map(([section, count], index) => ...)`:
one chart entry per map entry, colored by `colors[index % colors.length]`. -/
def sectionData (students : List StudentRecord) : List ChartEntry :=
  (sectionMap students).enum.map fun p =>
    { name := p.2.1, value := (p.2.2 : Int), color := colors.getD (p.1 % colors.length) "" }

/-- `totalCompletions`: the `forEach` accumulation of
`(student.experimentsCompleted || []).length` over all students. -/
def totalCompletions (students : List StudentRecord) : Nat :=
  students.foldl (fun acc s => acc + (s.experimentsCompleted.getD []).length) 0

/-- The `setStats` payload of the faculty branch of `fetchStats`. -/
def facultyStats (students : List StudentRecord)
    (experiments : List ExperimentRecord) : Stats :=
  let totalExperiments := experiments.length
  let completions := totalCompletions students
  { totalStudents := students.length
    totalExperiments := totalExperiments
    completedExperiments := completions
    vivaAttempts := 0
    sectionWiseStudents := sectionData students
    experimentProgress :=
      [{ name := "Completed", value := (completions : Int), color := "#10B981" },
       { name := "Pending",
         value := max 0 ((students.length * totalExperiments : Int) - (completions : Int)),
         color := "#F59E0B" }]
    vivaProgress :=
      [{ name := "Attempted", value := 30, color := "#3B82F6" },
       { name := "Not Attempted", value := 70, color := "#E5E7EB" }] }

/-- The `setStats` payload of the student branch of `fetchStats`:
`completedExperiments = studentData.experimentsCompleted?.length || 0`,
`vivaScores = Object.keys(studentData.vivaScores || {}).length`,
`totalExperiments` hardcoded to `5`. -/
def studentStats (p : Profile) : Stats :=
  let completedExperiments := (p.experimentsCompleted.getD []).length
  let vivaScores := (p.vivaScores.getD []).length
  { totalStudents := 0
    totalExperiments := 5
    completedExperiments := completedExperiments
    vivaAttempts := vivaScores
    sectionWiseStudents := []
    experimentProgress :=
      [{ name := "Completed", value := (completedExperiments : Int), color := "#10B981" },
       { name := "Remaining", value := max 0 ((5 : Int) - (completedExperiments : Int)),
         color := "#F59E0B" }]
    vivaProgress :=
      [{ name := "Attempted", value := (vivaScores : Int), color := "#3B82F6" },
       { name := "Remaining", value := max 0 ((5 : Int) - (vivaScores : Int)),
         color := "#E5E7EB" }] }

/-- Outcome of one run of the `fetchStats` async function: the resulting
`stats` state, how many Firestore queries were issued, and what was
logged through `console.error`. -/
structure FetchResult where
  stats : Stats
  queriesIssued : Nat
  errorsLogged : List String
  deriving Repr, DecidableEq

/-- One run of `fetchStats`.  `studentsQuery` / `experimentsQuery` are
the outcomes of the two `await getDocs` calls of the faculty branch
(`Except.error` models a throw); `prior` is the `stats` state before the
run.  The early `if (!userProfile) return;` is the `none` case; the
`try/catch` logs `console.error('Error fetching stats:', error)` and
leaves `stats` untouched. -/
def fetchStats (userProfile : Option Profile)
    (studentsQuery : Except String (List StudentRecord))
    (experimentsQuery : Except String (List ExperimentRecord))
    (prior : Stats) : FetchResult :=
  match userProfile with
  | none => { stats := prior, queriesIssued := 0, errorsLogged := [] }
  | some p =>
    if p.role = "faculty" then
      match studentsQuery with
      | .error e =>
          { stats := prior, queriesIssued := 1
            errorsLogged := ["Error fetching stats: " ++ e] }
      | .ok students =>
        match experimentsQuery with
        | .error e =>
            { stats := prior, queriesIssued := 2
              errorsLogged := ["Error fetching stats: " ++ e] }
        | .ok experiments =>
            { stats := facultyStats students experiments
              queriesIssued := 2, errorsLogged := [] }
    else
      { stats := studentStats p, queriesIssued := 0, errorsLogged := [] }

/-- The Success Rate card value
`Math.round((stats.completedExperiments / stats.totalExperiments) * 100)`.
When `totalExperiments = 0` the JS division yields `NaN` (or `Infinity`),
never a finite number; that is the `none` case.  Otherwise exact rational
arithmetic with round-half-up (`Math.round`). -/
def successRate (s : Stats) : Option Int :=
  if s.totalExperiments = 0 then none
  else some (round (((s.completedExperiments : ℚ) / (s.totalExperiments : ℚ)) * 100))

/-- The rendered view: the heading and the four stat cards
(title, displayed number; `none` models a non-finite JS number). -/
structure RenderedView where
  title : String
  statCards : List (String × Option Int)
  deriving Repr, DecidableEq

/-- The component's render: `if (!userProfile) return null;`, then the
role-dependent heading and four stat cards. -/
def renderDashboard (userProfile : Option Profile) (stats : Stats) :
    Option RenderedView :=
  match userProfile with
  | none => none
  | some p =>
    if p.role = "faculty" then
      some
        { title := "Faculty Dashboard"
          statCards :=
            [("Total Students", some (stats.totalStudents : Int)),
             ("Total Experiments", some (stats.totalExperiments : Int)),
             ("Completed Experiments", some (stats.completedExperiments : Int)),
             ("Viva Attempts", some (stats.vivaAttempts : Int))] }
    else
      some
        { title := "Student Dashboard"
          statCards :=
            [("Experiments Completed", some (stats.completedExperiments : Int)),
             ("Viva Questions Attempted", some (stats.vivaAttempts : Int)),
             ("Total Experiments", some (stats.totalExperiments : Int)),
             ("Success Rate", successRate stats)] }

/-- The distinct elements of a list, in first-encounter order.  This is
the key order of a JS `Map` fed the list; used to state the grouping
claims. -/
def keysInOrder : List String → List String
  | [] => []
  | x :: xs => x :: keysInOrder (xs.filter fun y => y ≠ x)
termination_by l => l.length
decreasing_by
  simp only [List.length_cons]
  exact Nat.lt_succ_of_le (List.length_filter_le _ _)

/-- Value found for a key by a JS `Map` lookup, `0` when absent
(`sectionMap.get(section) || 0`). -/
def lookupCount : List (String × Nat) → String → Nat
  | [], _ => 0
  | (k, v) :: rest, key => if k = key then v else lookupCount rest key

/-! ## Helper lemmas -/

theorem foldl_add_eq {α : Type} (f : α → Nat) (l : List α) (n : Nat) :
    l.foldl (fun acc s => acc + f s) n = n + (l.map f).sum := by
  induction l generalizing n with
  | nil => simp
  | cons x xs ih => simp [ih, Nat.add_assoc]

theorem totalCompletions_eq (students : List StudentRecord) :
    totalCompletions students
      = (students.map fun s => (s.experimentsCompleted.getD []).length).sum := by
  simpa using foldl_add_eq (fun s => (s.experimentsCompleted.getD []).length) students 0

theorem sectionMap_eq_foldl (students : List StudentRecord) :
    sectionMap students = (students.map sectionLabel).foldl bump [] := by
  simp [sectionMap, List.foldl_map]

theorem bump_snd_sum (m : List (String × Nat)) (key : String) :
    ((bump m key).map Prod.snd).sum = (m.map Prod.snd).sum + 1 := by
  induction m with
  | nil => simp [bump]
  | cons p rest ih =>
    obtain ⟨k, v⟩ := p
    by_cases h : k = key <;> simp [bump, h, ih] <;> omega

theorem foldl_bump_snd_sum (labels : List String) :
    ∀ m : List (String × Nat),
      ((labels.foldl bump m).map Prod.snd).sum = (m.map Prod.snd).sum + labels.length := by
  induction labels with
  | nil => intro m; simp
  | cons x rest ih =>
    intro m
    simp only [List.foldl_cons, List.length_cons]
    rw [ih (bump m x), bump_snd_sum]
    omega

theorem sectionMap_snd_sum (students : List StudentRecord) :
    ((sectionMap students).map Prod.snd).sum = students.length := by
  rw [sectionMap_eq_foldl]
  simpa using foldl_bump_snd_sum (students.map sectionLabel) []

theorem enum_map_proj {α β : Type} (l : List α) (g : α → β) :
    (l.enum.map fun p => g p.2) = l.map g := by
  calc l.enum.map (fun p => g p.2) = (l.enum.map Prod.snd).map g := by
        rw [List.map_map]; rfl
    _ = l.map g := by rw [List.enum_map_snd]

theorem sectionData_map_name (students : List StudentRecord) :
    (sectionData students).map (fun e => e.name) = (sectionMap students).map Prod.fst := by
  simp only [sectionData, List.map_map]
  exact enum_map_proj (sectionMap students) Prod.fst

theorem sectionData_map_value (students : List StudentRecord) :
    (sectionData students).map (fun e => e.value)
      = (sectionMap students).map fun q => (q.2 : Int) := by
  simp only [sectionData, List.map_map]
  exact enum_map_proj (sectionMap students) fun q => (q.2 : Int)

theorem sectionData_map_pair (students : List StudentRecord) :
    (sectionData students).map (fun e => (e.name, e.value))
      = (sectionMap students).map fun q => (q.1, (q.2 : Int)) := by
  simp only [sectionData, List.map_map]
  exact enum_map_proj (sectionMap students) fun q => (q.1, (q.2 : Int))

theorem sum_map_natCast (l : List (String × Nat)) :
    ((l.map fun q => (q.2 : Int)).sum) = ((l.map Prod.snd).sum : Int) := by
  induction l with
  | nil => simp
  | cons p rest ih => simp [ih]

theorem lookupCount_bump (m : List (String × Nat)) (key k : String) :
    lookupCount (bump m key) k = lookupCount m k + (if key = k then 1 else 0) := by
  induction m with
  | nil => by_cases h : key = k <;> simp [bump, lookupCount, h]
  | cons p rest ih =>
    obtain ⟨a, v⟩ := p
    by_cases h1 : a = key
    · subst h1
      by_cases h2 : a = k <;> simp [bump, lookupCount, h2]
    · by_cases h2 : a = k
      · subst h2
        have : ¬key = a := fun h => h1 h.symm
        simp [bump, h1, lookupCount, this]
      · simp [bump, h1, lookupCount, h2, ih]

theorem foldl_bump_lookupCount (labels : List String) :
    ∀ (m : List (String × Nat)) (k : String),
      lookupCount (labels.foldl bump m) k = lookupCount m k + labels.count k := by
  induction labels with
  | nil => intro m k; simp
  | cons x rest ih =>
    intro m k
    simp only [List.foldl_cons]
    rw [ih (bump m x) k, lookupCount_bump]
    by_cases h : x = k
    · subst h
      simp [List.count_cons]
      omega
    · have h' : ¬k = x := fun e => h e.symm
      simp [List.count_cons, h, h']

theorem count_map_label (students : List StudentRecord) (a : String) :
    (students.map sectionLabel).count a
      = (students.filter fun s => sectionLabel s = a).length := by
  induction students with
  | nil => simp
  | cons s rest ih =>
    by_cases h : sectionLabel s = a
    · simp [List.count_cons, List.filter_cons, h, ih]
    · have h' : ¬a = sectionLabel s := fun e => h e.symm
      simp [List.count_cons, List.filter_cons, h, h', ih]

theorem sectionMap_lookupCount (students : List StudentRecord) (a : String) :
    lookupCount (sectionMap students) a
      = (students.filter fun s => sectionLabel s = a).length := by
  rw [sectionMap_eq_foldl]
  have h := foldl_bump_lookupCount (students.map sectionLabel) [] a
  simpa [lookupCount, count_map_label] using h

theorem keysInOrder_cons (x : String) (xs : List String) :
    keysInOrder (x :: xs) = x :: keysInOrder (xs.filter fun y => y ≠ x) := by
  rw [keysInOrder]

theorem mem_keysInOrder (a : String) (l : List String) :
    a ∈ keysInOrder l ↔ a ∈ l := by
  induction l using keysInOrder.induct with
  | case1 => simp [keysInOrder]
  | case2 x xs ih =>
    rw [keysInOrder_cons]
    simp only [ne_eq] at ih ⊢
    by_cases h : a = x
    · simp [h]
    · simp only [List.mem_cons, h, false_or]
      rw [ih]
      simp [List.mem_filter, h]

theorem keysInOrder_nodup (l : List String) : (keysInOrder l).Nodup := by
  induction l using keysInOrder.induct with
  | case1 => simp [keysInOrder]
  | case2 x xs ih =>
    rw [keysInOrder_cons]
    refine List.nodup_cons.mpr ⟨?_, ih⟩
    intro hx
    rw [mem_keysInOrder] at hx
    have h2 := (List.mem_filter.mp hx).2
    simp at h2

theorem bump_fst_of_mem (m : List (String × Nat)) (key : String)
    (h : key ∈ m.map Prod.fst) :
    (bump m key).map Prod.fst = m.map Prod.fst := by
  induction m with
  | nil => simp at h
  | cons p rest ih =>
    obtain ⟨a, v⟩ := p
    by_cases h1 : a = key
    · simp [bump, h1]
    · have : key ∈ rest.map Prod.fst := by
        rcases List.mem_cons.mp h with h2 | h2
        · exact absurd h2.symm h1
        · exact h2
      simp [bump, h1, ih this]

theorem bump_fst_of_not_mem (m : List (String × Nat)) (key : String)
    (h : key ∉ m.map Prod.fst) :
    (bump m key).map Prod.fst = m.map Prod.fst ++ [key] := by
  induction m with
  | nil => simp [bump]
  | cons p rest ih =>
    obtain ⟨a, v⟩ := p
    have h1 : a ≠ key := by
      intro hak
      exact h (by simp [hak])
    have h2 : key ∉ rest.map Prod.fst := fun hk => h (by simp [hk])
    simp [bump, h1, ih h2]

theorem foldl_bump_fst (labels : List String) :
    ∀ m : List (String × Nat),
      (labels.foldl bump m).map Prod.fst
        = m.map Prod.fst ++ keysInOrder (labels.filter fun x => x ∉ m.map Prod.fst) := by
  induction labels with
  | nil => intro m; simp [keysInOrder]
  | cons x rest ih =>
    intro m
    simp only [List.foldl_cons]
    rw [ih (bump m x), List.filter_cons]
    by_cases hx : x ∈ m.map Prod.fst
    · rw [bump_fst_of_mem m x hx]
      simp [hx]
    · rw [bump_fst_of_not_mem m x hx]
      have hpx : decide (x ∉ m.map Prod.fst) = true := by simpa using hx
      rw [if_pos hpx, keysInOrder_cons, List.append_assoc]
      have hfil :
          rest.filter (fun y => y ∉ (m.map Prod.fst ++ [x]))
            = (rest.filter fun y => y ∉ m.map Prod.fst).filter fun y => y ≠ x := by
        rw [List.filter_filter]
        apply List.filter_congr
        intro y _
        simp only [ne_eq, List.mem_append, List.mem_singleton, not_or]
        by_cases hA : y ∈ List.map Prod.fst m <;> by_cases hB : y = x <;> simp [hA, hB]
      rw [hfil]
      rfl

theorem sectionMap_fst (students : List StudentRecord) :
    (sectionMap students).map Prod.fst = keysInOrder (students.map sectionLabel) := by
  rw [sectionMap_eq_foldl, foldl_bump_fst]
  simp

theorem sectionData_getElem (students : List StudentRecord) (k : Nat) :
    (sectionData students)[k]? = ((sectionMap students)[k]?).map fun q =>
      ({ name := q.1, value := (q.2 : Int),
         color := colors.getD (k % colors.length) "" } : ChartEntry) := by
  simp only [sectionData, List.getElem?_map, List.getElem?_enum, Option.map_map]
  rfl

/-! ## Claims -/

/-- C1: for every faculty-role profile with matched student and experiment
records, the aggregation is `facultyStats`, which sets `totalStudents` to the
number of student records, `totalExperiments` to the number of experiment
records, `completedExperiments` to the sum of the lengths of the students'
`experimentsCompleted` sequences (absent means empty), and the
experiment-progress breakdown to exactly `Completed = completedExperiments`
and `Pending = max 0 (totalStudents * totalExperiments -
completedExperiments)`; the 3-students / 2-experiments / lengths `[1,2,0]`
scenario yields `3 / 2 / 3` and progress `[{Completed,3},{Pending,3}]`. -/
theorem faculty_aggregation_correct (students : List StudentRecord)
    (experiments : List ExperimentRecord) :
    (∀ (pf : Profile) (prior : Stats), pf.role = "faculty" →
        (fetchStats (some pf) (.ok students) (.ok experiments) prior).stats
          = facultyStats students experiments) ∧
    (facultyStats students experiments).totalStudents = students.length ∧
    (facultyStats students experiments).totalExperiments = experiments.length ∧
    (facultyStats students experiments).completedExperiments
      = (students.map fun s => (s.experimentsCompleted.getD []).length).sum ∧
    (facultyStats students experiments).experimentProgress
      = [{ name := "Completed",
           value := ((facultyStats students experiments).completedExperiments : Int),
           color := "#10B981" },
         { name := "Pending",
           value := max 0
             (((facultyStats students experiments).totalStudents
                  * (facultyStats students experiments).totalExperiments : Int)
               - ((facultyStats students experiments).completedExperiments : Int)),
           color := "#F59E0B" }] ∧
    facultyStats
        [⟨"1", some "sectionA", some ["e1"]⟩,
         ⟨"2", some "sectionA", some ["e1", "e2"]⟩,
         ⟨"3", some "sectionB", some []⟩]
        [⟨"x1"⟩, ⟨"x2"⟩]
      = { totalStudents := 3, totalExperiments := 2, completedExperiments := 3,
          vivaAttempts := 0,
          sectionWiseStudents :=
            [⟨"sectionA", 2, "#3B82F6"⟩, ⟨"sectionB", 1, "#10B981"⟩],
          experimentProgress :=
            [⟨"Completed", 3, "#10B981"⟩, ⟨"Pending", 3, "#F59E0B"⟩],
          vivaProgress :=
            [⟨"Attempted", 30, "#3B82F6"⟩, ⟨"Not Attempted", 70, "#E5E7EB"⟩] } := by
  refine ⟨?_, rfl, rfl, totalCompletions_eq students, rfl, by decide⟩
  intro pf prior h
  simp [fetchStats, h]

/-- C1 witness: the faculty link applied at a concrete profile and the
scenario data. -/
theorem faculty_aggregation_correct_witness :
    (⟨"faculty", "f1", none, none⟩ : Profile).role = "faculty" ∧
    (fetchStats (some ⟨"faculty", "f1", none, none⟩)
        (.ok [⟨"1", some "sectionA", some ["e1"]⟩,
              ⟨"2", some "sectionA", some ["e1", "e2"]⟩,
              ⟨"3", some "sectionB", some []⟩])
        (.ok [⟨"x1"⟩, ⟨"x2"⟩]) initialStats).stats
      = facultyStats
          [⟨"1", some "sectionA", some ["e1"]⟩,
           ⟨"2", some "sectionA", some ["e1", "e2"]⟩,
           ⟨"3", some "sectionB", some []⟩]
          [⟨"x1"⟩, ⟨"x2"⟩] :=
  ⟨rfl,
    (faculty_aggregation_correct
        [⟨"1", some "sectionA", some ["e1"]⟩,
         ⟨"2", some "sectionA", some ["e1", "e2"]⟩,
         ⟨"3", some "sectionB", some []⟩]
        [⟨"x1"⟩, ⟨"x2"⟩]).1 ⟨"faculty", "f1", none, none⟩ initialStats rfl⟩

/-- C2: for every student-role profile the aggregation is `studentStats`:
`completedExperiments` is the length of `experimentsCompleted` (0 if
absent), `vivaAttempts` is the number of (distinct) keys of `vivaScores`
(0 if absent), `totalExperiments` is the constant 5, and the two progress
breakdowns are `Completed/Remaining` and `Attempted/Remaining` with the
remainders clamped at 0; the 5-completed / 2-keys scenario yields the
claimed concrete view model. -/
theorem student_aggregation_correct (p : Profile)
    (q1 : Except String (List StudentRecord))
    (q2 : Except String (List ExperimentRecord))
    (prior : Stats) (hrole : p.role = "student") :
    (fetchStats (some p) q1 q2 prior).stats = studentStats p ∧
    (studentStats p).completedExperiments = (p.experimentsCompleted.getD []).length ∧
    (studentStats p).vivaAttempts = (p.vivaScores.getD []).length ∧
    (∀ ks : List String, p.vivaScores = some ks → ks.Nodup →
        (studentStats p).vivaAttempts = ks.dedup.length) ∧
    (studentStats p).totalExperiments = 5 ∧
    (studentStats p).experimentProgress
      = [{ name := "Completed",
           value := ((p.experimentsCompleted.getD []).length : Int),
           color := "#10B981" },
         { name := "Remaining",
           value := max 0 ((5 : Int) - ((p.experimentsCompleted.getD []).length : Int)),
           color := "#F59E0B" }] ∧
    (studentStats p).vivaProgress
      = [{ name := "Attempted",
           value := ((p.vivaScores.getD []).length : Int),
           color := "#3B82F6" },
         { name := "Remaining",
           value := max 0 ((5 : Int) - ((p.vivaScores.getD []).length : Int)),
           color := "#E5E7EB" }] ∧
    studentStats ⟨"student", "u1", some ["a", "b", "c", "d", "e"], some ["q1", "q2"]⟩
      = { totalStudents := 0, totalExperiments := 5, completedExperiments := 5,
          vivaAttempts := 2, sectionWiseStudents := [],
          experimentProgress :=
            [⟨"Completed", 5, "#10B981"⟩, ⟨"Remaining", 0, "#F59E0B"⟩],
          vivaProgress :=
            [⟨"Attempted", 2, "#3B82F6"⟩, ⟨"Remaining", 3, "#E5E7EB"⟩] } := by
  refine ⟨by simp [fetchStats, hrole], rfl, rfl, ?_, rfl, rfl, rfl, by decide⟩
  intro ks hks hnd
  simp [studentStats, hks, List.dedup_eq_self.mpr hnd]

/-- C2 witness: the scenario profile with 5 completed experiments and 2
viva keys. -/
theorem student_aggregation_correct_witness :
    (⟨"student", "u1", some ["a", "b", "c", "d", "e"], some ["q1", "q2"]⟩ : Profile).role
        = "student" ∧
    (fetchStats (some ⟨"student", "u1", some ["a", "b", "c", "d", "e"], some ["q1", "q2"]⟩)
        (.ok []) (.ok []) initialStats).stats
      = studentStats ⟨"student", "u1", some ["a", "b", "c", "d", "e"], some ["q1", "q2"]⟩ ∧
    studentStats ⟨"student", "u1", some ["a", "b", "c", "d", "e"], some ["q1", "q2"]⟩
      = { totalStudents := 0, totalExperiments := 5, completedExperiments := 5,
          vivaAttempts := 2, sectionWiseStudents := [],
          experimentProgress :=
            [⟨"Completed", 5, "#10B981"⟩, ⟨"Remaining", 0, "#F59E0B"⟩],
          vivaProgress :=
            [⟨"Attempted", 2, "#3B82F6"⟩, ⟨"Remaining", 3, "#E5E7EB"⟩] } := by
  have h := student_aggregation_correct
    ⟨"student", "u1", some ["a", "b", "c", "d", "e"], some ["q1", "q2"]⟩
    (.ok []) (.ok []) initialStats rfl
  exact ⟨rfl, h.1, h.2.2.2.2.2.2.2⟩

/-- C3: the sum of the counts in the faculty section breakdown equals
`totalStudents`, which is the number of matched student records. -/
theorem section_counts_sum_totalStudents (students : List StudentRecord)
    (experiments : List ExperimentRecord) :
    (((facultyStats students experiments).sectionWiseStudents.map fun e => e.value).sum
        = ((facultyStats students experiments).totalStudents : Int)) ∧
    (facultyStats students experiments).totalStudents = students.length := by
  refine ⟨?_, rfl⟩
  show ((sectionData students).map fun e => e.value).sum = (students.length : Int)
  rw [sectionData_map_value, sum_map_natCast, sectionMap_snd_sum]

/-- C4: every count in any breakdown list of a produced view model (faculty
or student path) is non-negative; the `Pending` / `Remaining` entries are
clamped at 0 by `max`. -/
theorem breakdown_counts_nonneg (students : List StudentRecord)
    (experiments : List ExperimentRecord) (p : Profile) (e : ChartEntry)
    (he : e ∈ (facultyStats students experiments).sectionWiseStudents
        ∨ e ∈ (facultyStats students experiments).experimentProgress
        ∨ e ∈ (facultyStats students experiments).vivaProgress
        ∨ e ∈ (studentStats p).sectionWiseStudents
        ∨ e ∈ (studentStats p).experimentProgress
        ∨ e ∈ (studentStats p).vivaProgress) :
    0 ≤ e.value := by
  rcases he with h | h | h | h | h | h
  · have h' : e ∈ sectionData students := h
    simp only [sectionData, List.mem_map] at h'
    obtain ⟨q, _, rfl⟩ := h'
    exact Int.natCast_nonneg q.2.2
  · have h' : e ∈ (facultyStats students experiments).experimentProgress := h
    simp only [facultyStats, List.mem_cons, List.not_mem_nil, or_false] at h'
    rcases h' with rfl | rfl
    · exact Int.natCast_nonneg _
    · exact le_max_left 0 _
  · have h' : e ∈ (facultyStats students experiments).vivaProgress := h
    simp only [facultyStats, List.mem_cons, List.not_mem_nil, or_false] at h'
    rcases h' with rfl | rfl <;> decide
  · simp only [studentStats, List.not_mem_nil] at h
  · have h' : e ∈ (studentStats p).experimentProgress := h
    simp only [studentStats, List.mem_cons, List.not_mem_nil, or_false] at h'
    rcases h' with rfl | rfl
    · exact Int.natCast_nonneg _
    · exact le_max_left 0 _
  · have h' : e ∈ (studentStats p).vivaProgress := h
    simp only [studentStats, List.mem_cons, List.not_mem_nil, or_false] at h'
    rcases h' with rfl | rfl
    · exact Int.natCast_nonneg _
    · exact le_max_left 0 _

/-- C4 witness: a student who completed 7 of the assumed 5 experiments
still gets a non-negative (clamped-to-0) `Remaining` entry. -/
theorem breakdown_counts_nonneg_witness :
    ((⟨"Remaining", 0, "#F59E0B"⟩ : ChartEntry)
        ∈ (studentStats ⟨"student", "u7",
            some ["a", "b", "c", "d", "e", "f", "g"], none⟩).experimentProgress) ∧
    0 ≤ (⟨"Remaining", 0, "#F59E0B"⟩ : ChartEntry).value :=
  ⟨by decide,
    breakdown_counts_nonneg [] []
      ⟨"student", "u7", some ["a", "b", "c", "d", "e", "f", "g"], none⟩
      ⟨"Remaining", 0, "#F59E0B"⟩
      (Or.inr (Or.inr (Or.inr (Or.inr (Or.inl (by decide))))))⟩

/-- C5: a student whose `section` field is absent or the empty string gets
the label `"Unknown"`; the section breakdown carries exactly the
(label, count) pairs of the grouping map, and the count found at any
label — in particular `"Unknown"` — is the number of students with that
label. -/
theorem unknown_section_grouping (students : List StudentRecord)
    (experiments : List ExperimentRecord) (s : StudentRecord)
    (hs : s.sectionField = none ∨ s.sectionField = some "") :
    sectionLabel s = "Unknown" ∧
    ((facultyStats students experiments).sectionWiseStudents.map fun e => (e.name, e.value))
      = ((sectionMap students).map fun q => (q.1, (q.2 : Int))) ∧
    lookupCount (sectionMap students) "Unknown"
      = (students.filter fun t => sectionLabel t = "Unknown").length := by
  refine ⟨?_, ?_, sectionMap_lookupCount students "Unknown"⟩
  · rcases hs with h | h <;> simp [sectionLabel, h]
  · exact sectionData_map_pair students

/-- C5 witness: a missing-section student and an empty-string-section
student both land under `"Unknown"`. -/
theorem unknown_section_grouping_witness :
    ((⟨"1", none, none⟩ : StudentRecord).sectionField = none ∨
      (⟨"1", none, none⟩ : StudentRecord).sectionField = some "") ∧
    sectionLabel ⟨"1", none, none⟩ = "Unknown" ∧
    lookupCount (sectionMap [⟨"1", none, none⟩, ⟨"2", some "", some ["e1"]⟩]) "Unknown"
      = (List.filter (fun t => sectionLabel t = "Unknown")
          [⟨"1", none, none⟩, ⟨"2", some "", some ["e1"]⟩]).length := by
  have h := unknown_section_grouping
    [⟨"1", none, none⟩, ⟨"2", some "", some ["e1"]⟩] [] ⟨"1", none, none⟩ (Or.inl rfl)
  exact ⟨Or.inl rfl, h.1, h.2.2⟩

/-- C6: the section breakdown lists the distinct section labels in
first-encounter order (one entry per distinct label), and the entry at
0-based position `k` is colored `colors[k % 8]`, so colors repeat past 8
groups. -/
theorem section_breakdown_order_colors (students : List StudentRecord)
    (experiments : List ExperimentRecord) :
    ((facultyStats students experiments).sectionWiseStudents.map fun e => e.name)
        = keysInOrder (students.map sectionLabel) ∧
    ((facultyStats students experiments).sectionWiseStudents.map fun e => e.name).Nodup ∧
    (∀ a : String,
        (a ∈ (facultyStats students experiments).sectionWiseStudents.map fun e => e.name)
          ↔ a ∈ students.map sectionLabel) ∧
    (∀ (k : Nat) (e : ChartEntry),
        ((facultyStats students experiments).sectionWiseStudents)[k]? = some e →
        e.color = colors.getD (k % 8) "") := by
  have hname : ((facultyStats students experiments).sectionWiseStudents.map fun e => e.name)
      = keysInOrder (students.map sectionLabel) := by
    show ((sectionData students).map fun e => e.name) = _
    rw [sectionData_map_name, sectionMap_fst]
  refine ⟨hname, ?_, ?_, ?_⟩
  · rw [hname]; exact keysInOrder_nodup _
  · intro a; rw [hname]; exact mem_keysInOrder a _
  · intro k e he
    replace he : (sectionData students)[k]? = some e := he
    rw [sectionData_getElem] at he
    obtain ⟨q, _, rfl⟩ := Option.map_eq_some'.mp he
    rfl

/-- C6 witness: with 9 distinct sections the 9th entry (index 8) wraps
around to `colors[0]`. -/
theorem section_breakdown_order_colors_witness :
    ((facultyStats
        [⟨"1", some "s1", none⟩, ⟨"2", some "s2", none⟩, ⟨"3", some "s3", none⟩,
         ⟨"4", some "s4", none⟩, ⟨"5", some "s5", none⟩, ⟨"6", some "s6", none⟩,
         ⟨"7", some "s7", none⟩, ⟨"8", some "s8", none⟩, ⟨"9", some "s9", none⟩]
        []).sectionWiseStudents)[8]?
      = some ⟨"s9", 1, "#3B82F6"⟩ ∧
    (⟨"s9", 1, "#3B82F6"⟩ : ChartEntry).color = colors.getD (8 % 8) "" :=
  ⟨by decide,
    (section_breakdown_order_colors
        [⟨"1", some "s1", none⟩, ⟨"2", some "s2", none⟩, ⟨"3", some "s3", none⟩,
         ⟨"4", some "s4", none⟩, ⟨"5", some "s5", none⟩, ⟨"6", some "s6", none⟩,
         ⟨"7", some "s7", none⟩, ⟨"8", some "s8", none⟩, ⟨"9", some "s9", none⟩]
        []).2.2.2 8 ⟨"s9", 1, "#3B82F6"⟩ (by decide)⟩

/-- C7: every faculty-path view model has the placeholder `vivaAttempts = 0`
and the hardcoded viva breakdown `Attempted = 30`, `Not Attempted = 70`,
whatever the fetched data. -/
theorem faculty_viva_placeholder (students : List StudentRecord)
    (experiments : List ExperimentRecord) :
    (facultyStats students experiments).vivaAttempts = 0 ∧
    (facultyStats students experiments).vivaProgress
      = [{ name := "Attempted", value := 30, color := "#3B82F6" },
         { name := "Not Attempted", value := 70, color := "#E5E7EB" }] :=
  ⟨rfl, rfl⟩

/-- C8: when either faculty query throws, the error is caught and logged
and the view-model state is exactly the prior one; the total return type
of `fetchStats` shows that no exception reaches the caller. -/
theorem fetch_error_swallowed (p : Profile) (e : String)
    (q1 : Except String (List StudentRecord))
    (q2 : Except String (List ExperimentRecord)) (prior : Stats)
    (hrole : p.role = "faculty")
    (herr : q1 = .error e ∨ ∃ students, q1 = .ok students ∧ q2 = .error e) :
    (fetchStats (some p) q1 q2 prior).stats = prior ∧
    (fetchStats (some p) q1 q2 prior).errorsLogged
      = ["Error fetching stats: " ++ e] := by
  rcases herr with h | ⟨students, h1, h2⟩
  · subst h; simp [fetchStats, hrole]
  · subst h1; subst h2; simp [fetchStats, hrole]

/-- C8 witness: a throwing students query on first load leaves the
all-zero initial state in place. -/
theorem fetch_error_swallowed_witness :
    (⟨"faculty", "f1", none, none⟩ : Profile).role = "faculty" ∧
    (fetchStats (some ⟨"faculty", "f1", none, none⟩)
        (.error "network") (.ok []) initialStats).stats = initialStats ∧
    (fetchStats (some ⟨"faculty", "f1", none, none⟩)
        (.error "network") (.ok []) initialStats).errorsLogged
      = ["Error fetching stats: network"] := by
  have h := fetch_error_swallowed ⟨"faculty", "f1", none, none⟩ "network"
    (.error "network") (.ok []) initialStats rfl (Or.inl rfl)
  exact ⟨rfl, h.1, h.2⟩

/-- C9: with no profile, the fetch routine issues no query, logs nothing
and leaves the state as it was, and the component renders nothing. -/
theorem no_profile_skips_everything (q1 : Except String (List StudentRecord))
    (q2 : Except String (List ExperimentRecord)) (prior : Stats) :
    fetchStats none q1 q2 prior
      = { stats := prior, queriesIssued := 0, errorsLogged := [] } ∧
    renderDashboard none prior = none :=
  ⟨rfl, rfl⟩

/-- C10: the student Success Rate card shows
`round((completedExperiments / totalExperiments) * 100)` with no guard:
in the initial view model `totalExperiments = 0` and the division is
`0 / 0` (no finite value, modelled `none`), while every student-path
aggregation sets `totalExperiments = 5`, making the division
well-defined. -/
theorem success_rate_unguarded :
    initialStats.totalExperiments = 0 ∧
    initialStats.completedExperiments = 0 ∧
    successRate initialStats = none ∧
    (∀ s : Stats, s.totalExperiments ≠ 0 →
        successRate s
          = some (round (((s.completedExperiments : ℚ) / (s.totalExperiments : ℚ)) * 100))) ∧
    (∀ p : Profile, (studentStats p).totalExperiments = 5) ∧
    (∀ (p : Profile) (s : Stats), p.role = "student" →
        (renderDashboard (some p) s).map (fun v => v.statCards.getD 3 ("", none))
          = some ("Success Rate", successRate s)) ∧
    (∀ p : Profile, successRate (studentStats p)
        = some (round ((((p.experimentsCompleted.getD []).length : ℚ) / 5) * 100))) := by
  refine ⟨rfl, rfl, rfl, ?_, fun p => rfl, ?_, ?_⟩
  · intro s hs
    simp [successRate, hs]
  · intro p s hrole
    simp [renderDashboard, hrole]
  · intro p
    simp [successRate, studentStats]

/-- C10 witness: on a concrete post-aggregation state the division is
well-defined, and the student dashboard's fourth card is the Success Rate
computed from the current stats. -/
theorem success_rate_unguarded_witness :
    ((⟨0, 3, 2, 0, [], [], []⟩ : Stats).totalExperiments ≠ 0) ∧
    successRate ⟨0, 3, 2, 0, [], [], []⟩
      = some (round ((((⟨0, 3, 2, 0, [], [], []⟩ : Stats).completedExperiments : ℚ)
          / ((⟨0, 3, 2, 0, [], [], []⟩ : Stats).totalExperiments : ℚ)) * 100)) ∧
    (⟨"student", "u9", some ["a", "b", "c"], none⟩ : Profile).role = "student" ∧
    (renderDashboard (some ⟨"student", "u9", some ["a", "b", "c"], none⟩)
        (studentStats ⟨"student", "u9", some ["a", "b", "c"], none⟩)).map
          (fun v => v.statCards.getD 3 ("", none))
      = some ("Success Rate",
          successRate (studentStats ⟨"student", "u9", some ["a", "b", "c"], none⟩)) := by
  refine ⟨by decide, ?_, rfl, ?_⟩
  · exact success_rate_unguarded.2.2.2.1 ⟨0, 3, 2, 0, [], [], []⟩ (by decide)
  · exact success_rate_unguarded.2.2.2.2.2.1
      ⟨"student", "u9", some ["a", "b", "c"], none⟩
      (studentStats ⟨"student", "u9", some ["a", "b", "c"], none⟩) rfl

end Dashboard
